import Mathlib

/-!
Verification of the TAP (timeline aggregation protocol) core: the receipt
lifecycle state machine, the pluggable checks contract, and the RAV
aggregation algorithm.

The data model (`Receipt`, `EIP712SignedMessage`, `ReceiptAggregateVoucher`,
`RAVRequest`, the four lifecycle states, the `ReceiptChecksAdapter` contract)
is embedded from the Rust sources under `tap_core`. Machine integers are
modelled as `Nat` with explicit `2 ^ 128` overflow checks where the code uses
`u128::checked_add`.
-/

namespace Tap

/-- 20-byte blockchain address (`alloy_primitives::Address`), abstracted. -/
abbrev Address := Nat

/-- Opaque signature bytes of an EIP-712 signed message. -/
abbrev Signature := Nat

/-- Cap of unsigned 128-bit arithmetic: `u128::MAX + 1`. -/
def U128_MOD : Nat := 2 ^ 128

/-- `tap_receipt::Receipt`: allocation_id, timestamp_ns, nonce, value. -/
structure Receipt where
  allocation_id : Address
  timestamp_ns : Nat
  nonce : Nat
  value : Nat
deriving DecidableEq, Repr

/-- `EIP712SignedMessage<Receipt>`: a message together with its signature. -/
structure SignedReceipt where
  message : Receipt
  signature : Signature
deriving DecidableEq, Repr

/-- `ReceiptAggregateVoucher` (RAV): allocation_id, timestamp watermark,
cumulative value aggregate. -/
structure ReceiptAggregateVoucher where
  allocation_id : Address
  timestamp_ns : Nat
  value_aggregate : Nat
deriving DecidableEq, Repr

/-- `tap_manager::RAVRequest`: the per-cycle output of aggregation, from
`src/tap_core/src/tap_manager/rav_request.rs`. -/
structure RAVRequest where
  valid_receipts : List SignedReceipt
  invalid_receipts : List SignedReceipt
  expected_rav : ReceiptAggregateVoucher
deriving DecidableEq, Repr

/-- Names of the four checks-contract operations. -/
inductive CheckName where
  | unique
  | allocationId
  | value
  | senderId
deriving DecidableEq, Repr

/-- Modelled from the spec: the error taxonomy of §7 as far as a single
receipt is concerned (the `ReceiptError` of `crate::receipt`, whose source is
not under `src/`): a signature recovery failure, a check rejecting the
receipt, or the checks contract itself erroring with an inspectable
implementation-defined value of type `E`. -/
inductive ReceiptError (E : Type) where
  | signatureError
  | checkFailure (name : CheckName)
  | contractError (name : CheckName) (cause : E)
deriving DecidableEq, Repr

/-- The fatal aggregation error: overflow of the value summation. -/
inductive AggregationError where
  | aggregationOverflow
deriving DecidableEq, Repr

/-- `adapters::ReceiptChecksAdapter`: the externally supplied checks contract
with four independently failable operations, from
`src/tap_core/src/adapters/receipt_checks_adapter.rs`. Each returns
`Result<bool, AdapterError>`. -/
structure ReceiptChecksAdapter (E : Type) where
  is_unique : SignedReceipt → Nat → Except E Bool
  is_valid_allocation_id : Address → Except E Bool
  is_valid_value : Nat → Nat → Except E Bool
  is_valid_sender_id : Address → Except E Bool

/-- The ambient pure facts the aggregator depends on: signer recovery from a
signed receipt (`EIP712SignedMessage::recover_signer`, an excluded trusted
utility — `none` models a recovery failure), the derived receipt id used for
deduplication, and the query id a receipt pays for. -/
structure AggContext where
  recover : SignedReceipt → Option Address
  receipt_id : SignedReceipt → Nat
  query_id : SignedReceipt → Nat

/-- Lift one checks-contract call to a receipt verdict: a contract error is a
negative decision whose value is preserved in the reason; `ok false` is a
check failure; `ok true` passes. -/
def checkVerdict {E : Type} (name : CheckName) : Except E Bool → Except (ReceiptError E) Unit
  | Except.error e => Except.error (ReceiptError.contractError name e)
  | Except.ok false => Except.error (ReceiptError.checkFailure name)
  | Except.ok true => Except.ok ()

/-- Modelled from the spec: §4.2/§4.4 step 2 — re-recover the signer and run
the four required checks in a fixed order (uniqueness, allocation, value,
sender), recording the first observed failure. The Rust driver of the four
checks (`ReceivedReceipt`, in `tap_receipt`) is not under `src/`. -/
def runChecks {E : Type} (ctx : AggContext) (A : ReceiptChecksAdapter E)
    (r : SignedReceipt) : Except (ReceiptError E) Unit :=
  match ctx.recover r with
  | none => Except.error ReceiptError.signatureError
  | some sender =>
    match checkVerdict CheckName.unique (A.is_unique r (ctx.receipt_id r)) with
    | Except.error e => Except.error e
    | Except.ok _ =>
      match checkVerdict CheckName.allocationId (A.is_valid_allocation_id r.message.allocation_id) with
      | Except.error e => Except.error e
      | Except.ok _ =>
        match checkVerdict CheckName.value (A.is_valid_value r.message.value (ctx.query_id r)) with
        | Except.error e => Except.error e
        | Except.ok _ => checkVerdict CheckName.senderId (A.is_valid_sender_id sender)

/-- `true` iff the receipt passes signer re-recovery and all four re-run
checks. -/
def passes {E : Type} (ctx : AggContext) (A : ReceiptChecksAdapter E)
    (r : SignedReceipt) : Bool :=
  match runChecks ctx A r with
  | Except.ok _ => true
  | Except.error _ => false

/-- Modelled from the spec: §4.4 step 1 — drop any receipt whose
`timestamp_ns` is not strictly greater than the prior RAV watermark; keep all
when there is no prior RAV. -/
def filterByWatermark (prior : Option ReceiptAggregateVoucher)
    (receipts : List SignedReceipt) : List SignedReceipt :=
  match prior with
  | none => receipts
  | some rav => receipts.filter (fun r => decide (rav.timestamp_ns < r.message.timestamp_ns))

/-- Modelled from the spec: §4.4 step 2 — stable partition of the filtered
batch into passing receipts and failing receipts carrying their failure
reason. -/
def partitionReceipts {E : Type} (ctx : AggContext) (A : ReceiptChecksAdapter E) :
    List SignedReceipt → List SignedReceipt × List (SignedReceipt × ReceiptError E)
  | [] => ([], [])
  | r :: rest =>
    let acc := partitionReceipts ctx A rest
    match runChecks ctx A r with
    | Except.ok _ => (r :: acc.1, acc.2)
    | Except.error e => (acc.1, (r, e) :: acc.2)

/-- `u128::checked_add`: `none` on overflow past `2 ^ 128 - 1`. -/
def u128_checked_add (a b : Nat) : Option Nat :=
  if a + b < U128_MOD then some (a + b) else none

/-- Overflow-checked left fold of receipt values onto an accumulator. -/
def checkedSum : Nat → List Nat → Option Nat
  | acc, [] => some acc
  | acc, v :: vs =>
    match u128_checked_add acc v with
    | none => none
    | some s => checkedSum s vs

/-- Total of the receipt values of a list of signed receipts. -/
def sumValues (l : List SignedReceipt) : Nat :=
  (l.map (fun r => r.message.value)).sum

/-- Running maximum of receipt timestamps, seeded with `w`. -/
def maxTimestampFrom (w : Nat) (l : List SignedReceipt) : Nat :=
  l.foldl (fun m r => max m r.message.timestamp_ns) w

/-- Prior value aggregate, or 0 when there is no prior RAV. -/
def priorValue (prior : Option ReceiptAggregateVoucher) : Nat :=
  match prior with
  | none => 0
  | some rav => rav.value_aggregate

/-- Prior timestamp watermark, or 0 when there is no prior RAV. -/
def priorTimestamp (prior : Option ReceiptAggregateVoucher) : Nat :=
  match prior with
  | none => 0
  | some rav => rav.timestamp_ns

/-- Modelled from the spec: §4.4 steps 3-4 — fold the valid receipts and the
optional prior RAV into the expected RAV
(`ReceiptAggregateVoucher::aggregate_receipts`, whose source is not under
`src/`): `value_aggregate` is the overflow-checked sum of the prior aggregate
(or 0) and the valid receipts' values, an overflow being fatal; `timestamp_ns`
is the maximum receipt timestamp, starting from the prior watermark (or 0) so
that an empty batch retains the prior watermark. -/
def aggregate_receipts (allocation_id : Address) (valid : List SignedReceipt)
    (prior : Option ReceiptAggregateVoucher) :
    Except AggregationError ReceiptAggregateVoucher :=
  match checkedSum (priorValue prior) (valid.map (fun r => r.message.value)) with
  | none => Except.error AggregationError.aggregationOverflow
  | some v =>
    Except.ok
      { allocation_id := allocation_id
        timestamp_ns := maxTimestampFrom (priorTimestamp prior) valid
        value_aggregate := v }

/-- Modelled from the spec: §4.4 — the whole aggregation call
(`Manager::create_rav_request`, whose source is not under `src/`): watermark
filter, stable re-validation partition, overflow-checked fold; a check
failure only demotes its receipt, a value overflow aborts the call. The
resulting `RAVRequest` carries the invalid receipts without their reasons, as
the `RAVRequest` struct declares. -/
def create_rav_request {E : Type} (ctx : AggContext) (A : ReceiptChecksAdapter E)
    (allocation_id : Address) (prior : Option ReceiptAggregateVoucher)
    (receipts : List SignedReceipt) : Except AggregationError RAVRequest :=
  let filtered := filterByWatermark prior receipts
  let parts := partitionReceipts ctx A filtered
  match aggregate_receipts allocation_id parts.1 prior with
  | Except.error e => Except.error e
  | Except.ok rav =>
    Except.ok
      { valid_receipts := parts.1
        invalid_receipts := parts.2.map Prod.fst
        expected_rav := rav }

/-- The receipt lifecycle state space, from
`src/tap_core/src/receipt/state.rs`: the four (and only four) implementors of
the `ReceiptState` trait — `Checking`, `Failed { error: ReceiptError }`,
`AwaitingReserve`, `Reserved` — as one closed sum. `Failed` is the only state
carrying data. -/
inductive ReceiptState (E : Type) where
  | Checking
  | Failed (error : ReceiptError E)
  | AwaitingReserve
  | Reserved
deriving DecidableEq, Repr

/-- Events driving the lifecycle: completion of the checking phase with its
verdict, and the orchestrator-supplied escrow-reservation confirmation. -/
inductive LifecycleEvent (E : Type) where
  | checkComplete (result : Except (ReceiptError E) Unit)
  | escrowConfirmed
deriving Repr

/-- Modelled from the spec: §4.2 — the lifecycle transition function.
`Checking` moves to `Failed` with the recorded reason or to
`AwaitingReserve` on full success; `AwaitingReserve` moves to `Reserved` only
on external escrow confirmation; `Failed` and `Reserved` are terminal
(`none` = no transition). -/
def lifecycleStep {E : Type} : ReceiptState E → LifecycleEvent E → Option (ReceiptState E)
  | ReceiptState.Checking, LifecycleEvent.checkComplete (Except.error e) =>
      some (ReceiptState.Failed e)
  | ReceiptState.Checking, LifecycleEvent.checkComplete (Except.ok _) =>
      some ReceiptState.AwaitingReserve
  | ReceiptState.AwaitingReserve, LifecycleEvent.escrowConfirmed =>
      some ReceiptState.Reserved
  | _, _ => none

/-- The inspectable reason carried by a `Failed` state, `none` otherwise. -/
def failedReason {E : Type} : ReceiptState E → Option (ReceiptError E)
  | ReceiptState.Failed e => some e
  | _ => none

/-- The inspectable adapter-error value preserved inside a receipt error,
when the reason is a contract error. -/
def adapterErrorOf {E : Type} : ReceiptError E → Option E
  | ReceiptError.contractError _ e => some e
  | _ => none

/-- The verdicts of the four checks-contract operations on one receipt, in
the fixed order the checking phase observes them. -/
def checkOutcomes {E : Type} (ctx : AggContext) (A : ReceiptChecksAdapter E)
    (r : SignedReceipt) (sender : Address) : List (Except (ReceiptError E) Unit) :=
  [checkVerdict CheckName.unique (A.is_unique r (ctx.receipt_id r)),
   checkVerdict CheckName.allocationId (A.is_valid_allocation_id r.message.allocation_id),
   checkVerdict CheckName.value (A.is_valid_value r.message.value (ctx.query_id r)),
   checkVerdict CheckName.senderId (A.is_valid_sender_id sender)]

/-- The first observed failure of the checking phase: a signature recovery
failure, or else the first negative verdict among the ordered check
outcomes. -/
def firstFailure {E : Type} (ctx : AggContext) (A : ReceiptChecksAdapter E)
    (r : SignedReceipt) : Option (ReceiptError E) :=
  match ctx.recover r with
  | none => some ReceiptError.signatureError
  | some sender =>
    (checkOutcomes ctx A r sender).findSome? (fun o =>
      match o with
      | Except.error e => some e
      | Except.ok _ => none)

/-- The receipt passes signer recovery and all four checks-contract
operations answer `ok true`. -/
def allChecksPass {E : Type} (ctx : AggContext) (A : ReceiptChecksAdapter E)
    (r : SignedReceipt) : Prop :=
  ∃ s, ctx.recover r = some s
    ∧ A.is_unique r (ctx.receipt_id r) = Except.ok true
    ∧ A.is_valid_allocation_id r.message.allocation_id = Except.ok true
    ∧ A.is_valid_value r.message.value (ctx.query_id r) = Except.ok true
    ∧ A.is_valid_sender_id s = Except.ok true

/-- Concrete context for witnesses: signer 7 recovers from signature 0,
receipt ids are nonces, query ids are 0. -/
def sCtx : AggContext :=
  { recover := fun r => if r.signature = 0 then some 7 else none
    receipt_id := fun r => r.message.nonce
    query_id := fun _ => 0 }

/-- Concrete checks adapter for witnesses, with `Nat`-valued adapter errors:
nonce 99 is non-unique, allocation 1 is the only valid one, value 777 makes
the value check error with adapter error 42, values below 100 are valid,
sender 7 is the only allowed sender. -/
def sAdapter : ReceiptChecksAdapter Nat :=
  { is_unique := fun r _ => Except.ok (decide (r.message.nonce ≠ 99))
    is_valid_allocation_id := fun a => Except.ok (decide (a = 1))
    is_valid_value := fun v _ =>
      if v = 777 then Except.error 42 else Except.ok (decide (v < 100))
    is_valid_sender_id := fun s => Except.ok (decide (s = 7)) }

/-- Witness receipt below the prior watermark. -/
def sR1 : SignedReceipt :=
  { message := { allocation_id := 1, timestamp_ns := 900, nonce := 1, value := 10 }
    signature := 0 }

/-- Witness receipt that fails the value check. -/
def sR2 : SignedReceipt :=
  { message := { allocation_id := 1, timestamp_ns := 1500, nonce := 2, value := 200 }
    signature := 0 }

/-- Witness receipt that passes all checks. -/
def sR3 : SignedReceipt :=
  { message := { allocation_id := 1, timestamp_ns := 2000, nonce := 3, value := 30 }
    signature := 0 }

/-- Witness prior RAV: allocation 1, watermark 1000, aggregate 500. -/
def sPrior : ReceiptAggregateVoucher :=
  { allocation_id := 1, timestamp_ns := 1000, value_aggregate := 500 }

/-- The RAVRequest the witness scenario produces. -/
def sReq : RAVRequest :=
  { valid_receipts := [sR3]
    invalid_receipts := [sR2]
    expected_rav := { allocation_id := 1, timestamp_ns := 2000, value_aggregate := 530 } }

/-- Witness receipt whose value 777 makes the sample value check return an
adapter error. -/
def sErr : SignedReceipt :=
  { message := { allocation_id := 1, timestamp_ns := 1500, nonce := 5, value := 777 }
    signature := 0 }

/-- Witness adapter that accepts everything, for the overflow scenario. -/
def sBigAdapter : ReceiptChecksAdapter Nat :=
  { is_unique := fun _ _ => Except.ok true
    is_valid_allocation_id := fun _ => Except.ok true
    is_valid_value := fun _ _ => Except.ok true
    is_valid_sender_id := fun _ => Except.ok true }

/-- Witness prior RAV whose aggregate is `u128::MAX - 5`. -/
def sBigPrior : ReceiptAggregateVoucher :=
  { allocation_id := 1, timestamp_ns := 0, value_aggregate := 2 ^ 128 - 6 }

/-- Witness receipt of value 10 that overflows the aggregate on top of
`sBigPrior`. -/
def sOv : SignedReceipt :=
  { message := { allocation_id := 1, timestamp_ns := 5, nonce := 4, value := 10 }
    signature := 0 }

theorem checkedSum_eq (vs : List Nat) (a : Nat) (ha : a < U128_MOD) :
    checkedSum a vs = if a + vs.sum < U128_MOD then some (a + vs.sum) else none := by
  induction vs generalizing a with
  | nil =>
    simp only [checkedSum, List.sum_nil, Nat.add_zero, if_pos ha]
  | cons v vs ih =>
    by_cases h : a + v < U128_MOD
    · simp only [checkedSum, u128_checked_add, if_pos h]
      rw [ih (a + v) h]
      simp only [List.sum_cons, ← Nat.add_assoc]
    · have hnot : ¬ a + (v :: vs).sum < U128_MOD := by
        simp only [List.sum_cons]
        omega
      simp only [checkedSum, u128_checked_add, if_neg h, if_neg hnot]

theorem maxTimestampFrom_cons (w : Nat) (r : SignedReceipt) (l : List SignedReceipt) :
    maxTimestampFrom w (r :: l) = maxTimestampFrom (max w r.message.timestamp_ns) l := rfl

theorem le_maxTimestampFrom (w : Nat) (l : List SignedReceipt) :
    w ≤ maxTimestampFrom w l := by
  induction l generalizing w with
  | nil => exact Nat.le_refl w
  | cons r rest ih =>
    rw [maxTimestampFrom_cons]
    exact Nat.le_trans (Nat.le_max_left _ _) (ih _)

theorem timestamp_le_maxTimestampFrom (w : Nat) (l : List SignedReceipt)
    (r : SignedReceipt) (h : r ∈ l) :
    r.message.timestamp_ns ≤ maxTimestampFrom w l := by
  induction l generalizing w with
  | nil => cases h
  | cons a rest ih =>
    rw [maxTimestampFrom_cons]
    rcases List.mem_cons.mp h with heq | hmem
    · subst heq
      exact Nat.le_trans (Nat.le_max_right _ _) (le_maxTimestampFrom _ _)
    · exact ih (max w a.message.timestamp_ns) hmem

theorem maxTimestampFrom_eq_or_mem (w : Nat) (l : List SignedReceipt) :
    maxTimestampFrom w l = w
      ∨ ∃ r ∈ l, maxTimestampFrom w l = r.message.timestamp_ns := by
  induction l generalizing w with
  | nil => exact Or.inl rfl
  | cons a rest ih =>
    rw [maxTimestampFrom_cons]
    rcases ih (max w a.message.timestamp_ns) with h | ⟨r, hr, hre⟩
    · rcases Nat.le_total w a.message.timestamp_ns with hw | hw
      · refine Or.inr ⟨a, List.mem_cons_self a rest, ?_⟩
        rw [h, Nat.max_eq_right hw]
      · refine Or.inl ?_
        rw [h, Nat.max_eq_left hw]
    · exact Or.inr ⟨r, List.mem_cons_of_mem _ hr, hre⟩

theorem partitionReceipts_fst {E : Type} (ctx : AggContext) (A : ReceiptChecksAdapter E)
    (l : List SignedReceipt) :
    (partitionReceipts ctx A l).1 = l.filter (passes ctx A) := by
  induction l with
  | nil => rfl
  | cons r rest ih =>
    simp only [partitionReceipts, List.filter_cons]
    cases hrc : runChecks ctx A r with
    | ok u => simp [passes, hrc, ih]
    | error e => simp [passes, hrc, ih]

theorem partitionReceipts_snd_map_fst {E : Type} (ctx : AggContext)
    (A : ReceiptChecksAdapter E) (l : List SignedReceipt) :
    (partitionReceipts ctx A l).2.map Prod.fst
      = l.filter (fun r => ! passes ctx A r) := by
  induction l with
  | nil => rfl
  | cons r rest ih =>
    simp only [partitionReceipts, List.filter_cons]
    cases hrc : runChecks ctx A r with
    | ok u => simp [passes, hrc, ih]
    | error e => simp [passes, hrc, ih]

theorem partitionReceipts_snd_reason {E : Type} (ctx : AggContext)
    (A : ReceiptChecksAdapter E) (l : List SignedReceipt) :
    ∀ p ∈ (partitionReceipts ctx A l).2, runChecks ctx A p.1 = Except.error p.2 := by
  induction l with
  | nil => intro p hp; cases hp
  | cons r rest ih =>
    intro p hp
    simp only [partitionReceipts] at hp
    cases hrc : runChecks ctx A r with
    | ok u =>
      rw [hrc] at hp
      exact ih p hp
    | error e =>
      rw [hrc] at hp
      rcases List.mem_cons.mp hp with heq | hmem
      · subst heq
        exact hrc
      · exact ih p hmem

theorem aggregate_receipts_of_lt (aid : Address) (valid : List SignedReceipt)
    (prior : Option ReceiptAggregateVoucher)
    (hp : priorValue prior < U128_MOD)
    (h : priorValue prior + sumValues valid < U128_MOD) :
    aggregate_receipts aid valid prior
      = Except.ok
          { allocation_id := aid
            timestamp_ns := maxTimestampFrom (priorTimestamp prior) valid
            value_aggregate := priorValue prior + sumValues valid } := by
  unfold aggregate_receipts
  rw [checkedSum_eq _ _ hp, if_pos (by simpa [sumValues] using h)]
  rfl

theorem aggregate_receipts_of_not_lt (aid : Address) (valid : List SignedReceipt)
    (prior : Option ReceiptAggregateVoucher)
    (hp : priorValue prior < U128_MOD)
    (h : ¬ priorValue prior + sumValues valid < U128_MOD) :
    aggregate_receipts aid valid prior
      = Except.error AggregationError.aggregationOverflow := by
  unfold aggregate_receipts
  rw [checkedSum_eq _ _ hp, if_neg (by simpa [sumValues] using h)]

theorem aggregate_receipts_ok_iff (aid : Address) (valid : List SignedReceipt)
    (prior : Option ReceiptAggregateVoucher) (rav : ReceiptAggregateVoucher)
    (hp : priorValue prior < U128_MOD) :
    aggregate_receipts aid valid prior = Except.ok rav ↔
      (priorValue prior + sumValues valid < U128_MOD
        ∧ rav = { allocation_id := aid
                  timestamp_ns := maxTimestampFrom (priorTimestamp prior) valid
                  value_aggregate := priorValue prior + sumValues valid }) := by
  by_cases h : priorValue prior + sumValues valid < U128_MOD
  · rw [aggregate_receipts_of_lt _ _ _ hp h]
    simp [h, eq_comm]
  · rw [aggregate_receipts_of_not_lt _ _ _ hp h]
    simp [h]

theorem aggregate_receipts_error_iff (aid : Address) (valid : List SignedReceipt)
    (prior : Option ReceiptAggregateVoucher)
    (hp : priorValue prior < U128_MOD) :
    aggregate_receipts aid valid prior = Except.error AggregationError.aggregationOverflow ↔
      ¬ priorValue prior + sumValues valid < U128_MOD := by
  by_cases h : priorValue prior + sumValues valid < U128_MOD
  · rw [aggregate_receipts_of_lt _ _ _ hp h]
    simp [h]
  · rw [aggregate_receipts_of_not_lt _ _ _ hp h]
    simp [h]

theorem create_rav_request_ok_iff {E : Type} (ctx : AggContext)
    (A : ReceiptChecksAdapter E) (aid : Address)
    (prior : Option ReceiptAggregateVoucher) (receipts : List SignedReceipt)
    (req : RAVRequest) (hp : priorValue prior < U128_MOD) :
    create_rav_request ctx A aid prior receipts = Except.ok req ↔
      (priorValue prior
          + sumValues (partitionReceipts ctx A (filterByWatermark prior receipts)).1
          < U128_MOD
        ∧ req = { valid_receipts := (partitionReceipts ctx A (filterByWatermark prior receipts)).1
                  invalid_receipts :=
                    ((partitionReceipts ctx A (filterByWatermark prior receipts)).2).map Prod.fst
                  expected_rav :=
                    { allocation_id := aid
                      timestamp_ns :=
                        maxTimestampFrom (priorTimestamp prior)
                          (partitionReceipts ctx A (filterByWatermark prior receipts)).1
                      value_aggregate :=
                        priorValue prior
                          + sumValues (partitionReceipts ctx A (filterByWatermark prior receipts)).1 } }) := by
  unfold create_rav_request
  dsimp only
  by_cases h : priorValue prior
      + sumValues (partitionReceipts ctx A (filterByWatermark prior receipts)).1 < U128_MOD
  · have hagg : aggregate_receipts aid
        (partitionReceipts ctx A (filterByWatermark prior receipts)).1 prior
        = Except.ok
            { allocation_id := aid
              timestamp_ns :=
                maxTimestampFrom (priorTimestamp prior)
                  (partitionReceipts ctx A (filterByWatermark prior receipts)).1
              value_aggregate :=
                priorValue prior
                  + sumValues (partitionReceipts ctx A (filterByWatermark prior receipts)).1 } :=
      (aggregate_receipts_ok_iff _ _ _ _ hp).mpr ⟨h, rfl⟩
    rw [hagg]
    simp [h, eq_comm]
  · have hagg : aggregate_receipts aid
        (partitionReceipts ctx A (filterByWatermark prior receipts)).1 prior
        = Except.error AggregationError.aggregationOverflow :=
      (aggregate_receipts_error_iff _ _ _ hp).mpr h
    rw [hagg]
    simp [h]

theorem create_rav_request_error_iff {E : Type} (ctx : AggContext)
    (A : ReceiptChecksAdapter E) (aid : Address)
    (prior : Option ReceiptAggregateVoucher) (receipts : List SignedReceipt)
    (hp : priorValue prior < U128_MOD) :
    create_rav_request ctx A aid prior receipts
        = Except.error AggregationError.aggregationOverflow ↔
      ¬ priorValue prior
          + sumValues (partitionReceipts ctx A (filterByWatermark prior receipts)).1
          < U128_MOD := by
  unfold create_rav_request
  dsimp only
  by_cases h : priorValue prior
      + sumValues (partitionReceipts ctx A (filterByWatermark prior receipts)).1 < U128_MOD
  · have hagg : aggregate_receipts aid
        (partitionReceipts ctx A (filterByWatermark prior receipts)).1 prior
        = Except.ok
            { allocation_id := aid
              timestamp_ns :=
                maxTimestampFrom (priorTimestamp prior)
                  (partitionReceipts ctx A (filterByWatermark prior receipts)).1
              value_aggregate :=
                priorValue prior
                  + sumValues (partitionReceipts ctx A (filterByWatermark prior receipts)).1 } :=
      (aggregate_receipts_ok_iff _ _ _ _ hp).mpr ⟨h, rfl⟩
    rw [hagg]
    simp [h]
  · have hagg : aggregate_receipts aid
        (partitionReceipts ctx A (filterByWatermark prior receipts)).1 prior
        = Except.error AggregationError.aggregationOverflow :=
      (aggregate_receipts_error_iff _ _ _ hp).mpr h
    rw [hagg]
    simp [h]

theorem runChecks_ok_iff {E : Type} (ctx : AggContext) (A : ReceiptChecksAdapter E)
    (r : SignedReceipt) :
    runChecks ctx A r = Except.ok () ↔ allChecksPass ctx A r := by
  unfold runChecks allChecksPass
  cases hrec : ctx.recover r with
  | none => simp
  | some s =>
    cases h1 : A.is_unique r (ctx.receipt_id r) with
    | error e1 => simp [checkVerdict, h1]
    | ok b1 =>
      cases b1 with
      | false => simp [checkVerdict, h1]
      | true =>
        cases h2 : A.is_valid_allocation_id r.message.allocation_id with
        | error e2 => simp [checkVerdict, h1, h2]
        | ok b2 =>
          cases b2 with
          | false => simp [checkVerdict, h1, h2]
          | true =>
            cases h3 : A.is_valid_value r.message.value (ctx.query_id r) with
            | error e3 => simp [checkVerdict, h1, h2, h3]
            | ok b3 =>
              cases b3 with
              | false => simp [checkVerdict, h1, h2, h3]
              | true =>
                cases h4 : A.is_valid_sender_id s with
                | error e4 => simp [checkVerdict, h1, h2, h3, h4]
                | ok b4 =>
                  cases b4 with
                  | false => simp [checkVerdict, h1, h2, h3, h4]
                  | true => simp [checkVerdict, h1, h2, h3, h4]

theorem runChecks_eq_firstFailure {E : Type} (ctx : AggContext)
    (A : ReceiptChecksAdapter E) (r : SignedReceipt) :
    runChecks ctx A r
      = (match firstFailure ctx A r with
         | some e => Except.error e
         | none => Except.ok ()) := by
  unfold runChecks firstFailure checkOutcomes
  cases hrec : ctx.recover r with
  | none => rfl
  | some s =>
    cases h1 : checkVerdict CheckName.unique (A.is_unique r (ctx.receipt_id r)) with
    | error e1 => simp [List.findSome?, h1]
    | ok u1 =>
      cases h2 : checkVerdict CheckName.allocationId
          (A.is_valid_allocation_id r.message.allocation_id) with
      | error e2 => simp [List.findSome?, h1, h2]
      | ok u2 =>
        cases h3 : checkVerdict CheckName.value
            (A.is_valid_value r.message.value (ctx.query_id r)) with
        | error e3 => simp [List.findSome?, h1, h2, h3]
        | ok u3 =>
          cases h4 : checkVerdict CheckName.senderId (A.is_valid_sender_id s) with
          | error e4 => simp [List.findSome?, h1, h2, h3, h4]
          | ok u4 => simp [List.findSome?, h1, h2, h3, h4]

theorem passes_iff_allChecksPass {E : Type} (ctx : AggContext)
    (A : ReceiptChecksAdapter E) (r : SignedReceipt) :
    passes ctx A r = true ↔ allChecksPass ctx A r := by
  cases h : runChecks ctx A r with
  | ok u =>
    cases u
    have hacp : allChecksPass ctx A r := (runChecks_ok_iff ctx A r).mp h
    simp [passes, h, hacp]
  | error e =>
    have hacp : ¬ allChecksPass ctx A r := by
      intro hc
      have h2 := (runChecks_ok_iff ctx A r).mpr hc
      rw [h2] at h
      cases h
    simp [passes, h, hacp]

theorem watermark_le_of_mem_filtered (prior : Option ReceiptAggregateVoucher)
    (receipts : List SignedReceipt) (r : SignedReceipt)
    (h : r ∈ filterByWatermark prior receipts) :
    priorTimestamp prior ≤ r.message.timestamp_ns := by
  cases prior with
  | none => exact Nat.zero_le _
  | some rav =>
    unfold filterByWatermark at h
    have h2 := (List.mem_filter.mp h).2
    simp at h2
    exact Nat.le_of_lt h2

/-- C1: for every aggregation call that returns a RAVRequest, the expected
RAV's value_aggregate equals the prior RAV's value_aggregate (or 0 when there
is no prior RAV) plus the sum of value over the receipts placed in
valid_receipts, and the overflow-checked unsigned 128-bit summation stayed in
range. -/
theorem rav_value_aggregate_eq_prior_plus_sum {E : Type} (ctx : AggContext)
    (A : ReceiptChecksAdapter E) (aid : Address)
    (prior : Option ReceiptAggregateVoucher) (receipts : List SignedReceipt)
    (req : RAVRequest)
    (hp : priorValue prior < U128_MOD)
    (h : create_rav_request ctx A aid prior receipts = Except.ok req) :
    req.expected_rav.value_aggregate
        = priorValue prior + sumValues req.valid_receipts
      ∧ priorValue prior + sumValues req.valid_receipts < U128_MOD := by
  rcases (create_rav_request_ok_iff ctx A aid prior receipts req hp).mp h with ⟨hlt, hreq⟩
  subst hreq
  exact ⟨rfl, hlt⟩

/-- C2: an aggregation call fails, with AggregationOverflow and no RAVRequest,
exactly when the overflow-checked value summation leaves the u128 range;
a failing check never aborts the call — the failing receipt is merely placed
in invalid_receipts of the successful result. -/
theorem overflow_aborts_check_failures_demote {E : Type} (ctx : AggContext)
    (A : ReceiptChecksAdapter E) (aid : Address)
    (prior : Option ReceiptAggregateVoucher) (receipts : List SignedReceipt)
    (hp : priorValue prior < U128_MOD) :
    (create_rav_request ctx A aid prior receipts
        = Except.error AggregationError.aggregationOverflow
      ↔ ¬ priorValue prior
            + sumValues (partitionReceipts ctx A (filterByWatermark prior receipts)).1
            < U128_MOD)
    ∧ (∀ req r, create_rav_request ctx A aid prior receipts = Except.ok req →
        r ∈ filterByWatermark prior receipts → passes ctx A r = false →
        r ∈ req.invalid_receipts) := by
  constructor
  · exact create_rav_request_error_iff ctx A aid prior receipts hp
  · intro req r hok hmem hfail
    rcases (create_rav_request_ok_iff ctx A aid prior receipts req hp).mp hok with ⟨hlt, hreq⟩
    subst hreq
    show r ∈ ((partitionReceipts ctx A (filterByWatermark prior receipts)).2).map Prod.fst
    rw [partitionReceipts_snd_map_fst]
    exact List.mem_filter.mpr ⟨hmem, by simp [hfail]⟩

/-- C3: with a prior RAV, a receipt whose timestamp_ns is not strictly above
the prior watermark never reaches valid_receipts; with no prior RAV, every
input receipt lands in valid_receipts or in invalid_receipts. -/
theorem watermark_drops_stale_receipts {E : Type} (ctx : AggContext)
    (A : ReceiptChecksAdapter E) (aid : Address)
    (prior : Option ReceiptAggregateVoucher) (receipts : List SignedReceipt)
    (hp : priorValue prior < U128_MOD) :
    (∀ rav req r, prior = some rav →
        create_rav_request ctx A aid prior receipts = Except.ok req →
        r ∈ receipts → r.message.timestamp_ns ≤ rav.timestamp_ns →
        r ∉ req.valid_receipts)
    ∧ (prior = none →
        ∀ req, create_rav_request ctx A aid prior receipts = Except.ok req →
        ∀ r ∈ receipts, r ∈ req.valid_receipts ∨ r ∈ req.invalid_receipts) := by
  constructor
  · intro rav req r hprior hok hmem hts hval
    rcases (create_rav_request_ok_iff ctx A aid prior receipts req hp).mp hok with ⟨hlt, hreq⟩
    subst hreq
    rw [partitionReceipts_fst] at hval
    have h1 : r ∈ filterByWatermark prior receipts := (List.mem_filter.mp hval).1
    subst hprior
    unfold filterByWatermark at h1
    have h2 := (List.mem_filter.mp h1).2
    simp at h2
    omega
  · intro hnone req hok r hmem
    rcases (create_rav_request_ok_iff ctx A aid prior receipts req hp).mp hok with ⟨hlt, hreq⟩
    subst hreq
    subst hnone
    have hfil : r ∈ filterByWatermark none receipts := hmem
    cases hpass : passes ctx A r with
    | true =>
      left
      show r ∈ (partitionReceipts ctx A (filterByWatermark none receipts)).1
      rw [partitionReceipts_fst]
      exact List.mem_filter.mpr ⟨hfil, hpass⟩
    | false =>
      right
      show r ∈ ((partitionReceipts ctx A (filterByWatermark none receipts)).2).map Prod.fst
      rw [partitionReceipts_snd_map_fst]
      exact List.mem_filter.mpr ⟨hfil, by simp [hpass]⟩

/-- C4: the expected RAV's timestamp_ns is the maximum timestamp among
valid_receipts whenever valid_receipts is nonempty, and equals the prior
watermark when the watermark-filtered batch is empty. -/
theorem rav_timestamp_max_or_prior {E : Type} (ctx : AggContext)
    (A : ReceiptChecksAdapter E) (aid : Address)
    (prior : Option ReceiptAggregateVoucher) (receipts : List SignedReceipt)
    (req : RAVRequest)
    (hp : priorValue prior < U128_MOD)
    (h : create_rav_request ctx A aid prior receipts = Except.ok req) :
    (req.valid_receipts ≠ [] →
        (∃ rm ∈ req.valid_receipts,
            req.expected_rav.timestamp_ns = rm.message.timestamp_ns)
        ∧ ∀ r ∈ req.valid_receipts,
            r.message.timestamp_ns ≤ req.expected_rav.timestamp_ns)
    ∧ (filterByWatermark prior receipts = [] →
        req.expected_rav.timestamp_ns = priorTimestamp prior) := by
  rcases (create_rav_request_ok_iff ctx A aid prior receipts req hp).mp h with ⟨hlt, hreq⟩
  subst hreq
  constructor
  · intro hne
    constructor
    · rcases maxTimestampFrom_eq_or_mem (priorTimestamp prior)
          (partitionReceipts ctx A (filterByWatermark prior receipts)).1 with he | hm
      · rcases List.exists_mem_of_ne_nil _ hne with ⟨r0, hr0⟩
        refine ⟨r0, hr0, ?_⟩
        have hub := timestamp_le_maxTimestampFrom (priorTimestamp prior)
          (partitionReceipts ctx A (filterByWatermark prior receipts)).1 r0 hr0
        have hmemf : r0 ∈ filterByWatermark prior receipts := by
          have := hr0
          rw [partitionReceipts_fst] at this
          exact (List.mem_filter.mp this).1
        have hlb := watermark_le_of_mem_filtered prior receipts r0 hmemf
        show maxTimestampFrom (priorTimestamp prior)
            (partitionReceipts ctx A (filterByWatermark prior receipts)).1
          = r0.message.timestamp_ns
        omega
      · exact hm
    · intro r hr
      exact timestamp_le_maxTimestampFrom _ _ r hr
  · intro hfe
    show maxTimestampFrom (priorTimestamp prior)
        (partitionReceipts ctx A (filterByWatermark prior receipts)).1
      = priorTimestamp prior
    rw [hfe]
    rfl

/-- C5: the watermark-surviving receipts are partitioned stably — order
preserved as a filter of the filtered batch — into valid_receipts (those
passing signer re-recovery and all four checks) and invalid_receipts, whose
entries carry their recorded failure reason from the partition. -/
theorem aggregation_stable_partition {E : Type} (ctx : AggContext)
    (A : ReceiptChecksAdapter E) (aid : Address)
    (prior : Option ReceiptAggregateVoucher) (receipts : List SignedReceipt)
    (req : RAVRequest)
    (hp : priorValue prior < U128_MOD)
    (h : create_rav_request ctx A aid prior receipts = Except.ok req) :
    req.valid_receipts = (filterByWatermark prior receipts).filter (passes ctx A)
    ∧ req.invalid_receipts
        = (filterByWatermark prior receipts).filter (fun r => ! passes ctx A r)
    ∧ List.Sublist req.valid_receipts (filterByWatermark prior receipts)
    ∧ List.Sublist req.invalid_receipts (filterByWatermark prior receipts)
    ∧ (∀ r, passes ctx A r = true ↔ allChecksPass ctx A r)
    ∧ req.invalid_receipts
        = ((partitionReceipts ctx A (filterByWatermark prior receipts)).2).map Prod.fst
    ∧ (∀ p ∈ (partitionReceipts ctx A (filterByWatermark prior receipts)).2,
        runChecks ctx A p.1 = Except.error p.2) := by
  rcases (create_rav_request_ok_iff ctx A aid prior receipts req hp).mp h with ⟨hlt, hreq⟩
  subst hreq
  have hv : (partitionReceipts ctx A (filterByWatermark prior receipts)).1
      = (filterByWatermark prior receipts).filter (passes ctx A) :=
    partitionReceipts_fst ctx A _
  have hi : ((partitionReceipts ctx A (filterByWatermark prior receipts)).2).map Prod.fst
      = (filterByWatermark prior receipts).filter (fun r => ! passes ctx A r) :=
    partitionReceipts_snd_map_fst ctx A _
  refine ⟨hv, hi, ?_, ?_, ?_, rfl, partitionReceipts_snd_reason ctx A _⟩
  · show List.Sublist (partitionReceipts ctx A (filterByWatermark prior receipts)).1
      (filterByWatermark prior receipts)
    rw [hv]
    exact List.filter_sublist _
  · show List.Sublist
      (((partitionReceipts ctx A (filterByWatermark prior receipts)).2).map Prod.fst)
      (filterByWatermark prior receipts)
    rw [hi]
    exact List.filter_sublist _
  · intro r
    exact passes_iff_allChecksPass ctx A r

/-- C6: aggregating with a prior RAV R1 yields an expected RAV whose
value_aggregate and timestamp_ns are both at least R1's — successive RAVs are
monotonically non-decreasing. -/
theorem rav_monotonicity {E : Type} (ctx : AggContext)
    (A : ReceiptChecksAdapter E) (aid : Address)
    (R1 : ReceiptAggregateVoucher) (receipts : List SignedReceipt)
    (req2 : RAVRequest)
    (hp : R1.value_aggregate < U128_MOD)
    (h : create_rav_request ctx A aid (some R1) receipts = Except.ok req2) :
    R1.value_aggregate ≤ req2.expected_rav.value_aggregate
    ∧ R1.timestamp_ns ≤ req2.expected_rav.timestamp_ns := by
  rcases (create_rav_request_ok_iff ctx A aid (some R1) receipts req2 hp).mp h with ⟨hlt, hreq⟩
  subst hreq
  constructor
  · exact Nat.le_add_right _ _
  · exact le_maxTimestampFrom _ _

/-- C7: aggregation is a deterministic pure function of its inputs — two
checks adapters with pointwise identical behavior produce the identical
partition and the identical aggregation result on the same prior RAV and
batch. -/
theorem aggregation_deterministic {E : Type} (ctx : AggContext)
    (A B : ReceiptChecksAdapter E) (aid : Address)
    (prior : Option ReceiptAggregateVoucher) (receipts : List SignedReceipt)
    (h1 : ∀ r n, A.is_unique r n = B.is_unique r n)
    (h2 : ∀ a, A.is_valid_allocation_id a = B.is_valid_allocation_id a)
    (h3 : ∀ v q, A.is_valid_value v q = B.is_valid_value v q)
    (h4 : ∀ s, A.is_valid_sender_id s = B.is_valid_sender_id s) :
    partitionReceipts ctx A (filterByWatermark prior receipts)
        = partitionReceipts ctx B (filterByWatermark prior receipts)
    ∧ create_rav_request ctx A aid prior receipts
        = create_rav_request ctx B aid prior receipts := by
  have hAB : A = B := by
    cases A with
    | mk u a v s =>
      cases B with
      | mk u2 a2 v2 s2 =>
        simp only [ReceiptChecksAdapter.mk.injEq]
        refine ⟨?_, ?_, ?_, ?_⟩
        · funext r n
          exact h1 r n
        · funext a3
          exact h2 a3
        · funext v3 q
          exact h3 v3 q
        · funext s3
          exact h4 s3
  subst hAB
  exact ⟨rfl, rfl⟩

/-- C8: the lifecycle moves Checking→Failed carrying exactly the first
observed failure whenever recovery or any of the four checks fails,
Checking→AwaitingReserve precisely when recovery and all four checks
succeed, AwaitingReserve→Reserved only on the external escrow confirmation,
and Failed and Reserved admit no transition at all. -/
theorem lifecycle_state_machine {E : Type} (ctx : AggContext)
    (A : ReceiptChecksAdapter E) (r : SignedReceipt) :
    (∀ e, firstFailure ctx A r = some e →
        lifecycleStep ReceiptState.Checking
            (LifecycleEvent.checkComplete (runChecks ctx A r))
          = some (ReceiptState.Failed e))
    ∧ (firstFailure ctx A r = none ↔ allChecksPass ctx A r)
    ∧ (allChecksPass ctx A r →
        lifecycleStep ReceiptState.Checking
            (LifecycleEvent.checkComplete (runChecks ctx A r))
          = some ReceiptState.AwaitingReserve)
    ∧ (∀ (ev : LifecycleEvent E) (s : ReceiptState E),
        lifecycleStep ReceiptState.AwaitingReserve ev = some s →
          ev = LifecycleEvent.escrowConfirmed ∧ s = ReceiptState.Reserved)
    ∧ (∀ (e : ReceiptError E) (ev : LifecycleEvent E),
        lifecycleStep (ReceiptState.Failed e) ev = none)
    ∧ (∀ (ev : LifecycleEvent E), lifecycleStep ReceiptState.Reserved ev = none) := by
  refine ⟨?_, ?_, ?_, ?_, ?_, ?_⟩
  · intro e he
    rw [runChecks_eq_firstFailure, he]
    rfl
  · rw [← runChecks_ok_iff, runChecks_eq_firstFailure]
    cases hff : firstFailure ctx A r with
    | none => simp
    | some e => simp
  · intro hacp
    have h2 : runChecks ctx A r = Except.ok () := (runChecks_ok_iff ctx A r).mpr hacp
    rw [h2]
    rfl
  · intro ev s hstep
    cases ev with
    | checkComplete res =>
      cases res with
      | error e => cases hstep
      | ok u => cases hstep
    | escrowConfirmed =>
      refine ⟨rfl, ?_⟩
      have : some (ReceiptState.Reserved : ReceiptState E) = some s := hstep
      exact (Option.some.injEq _ _).mp this.symm
  · intro e ev
    cases ev with
    | checkComplete res =>
      cases res with
      | error e2 => rfl
      | ok u => rfl
    | escrowConfirmed => rfl
  · intro ev
    cases ev with
    | checkComplete res =>
      cases res with
      | error e2 => rfl
      | ok u => rfl
    | escrowConfirmed => rfl

/-- C9: for each of the four checks-contract operations, an adapter error is
treated like a false decision — the receipt transitions to Failed either
way — while the adapter's distinct error value stays inspectable inside the
Failed reason. -/
theorem adapter_error_negative_decision {E : Type} (ctx : AggContext)
    (A : ReceiptChecksAdapter E) (r : SignedReceipt) (s : Address) (ae : E)
    (hrec : ctx.recover r = some s) :
    (A.is_unique r (ctx.receipt_id r) = Except.error ae →
        lifecycleStep ReceiptState.Checking
            (LifecycleEvent.checkComplete (runChecks ctx A r))
          = some (ReceiptState.Failed (ReceiptError.contractError CheckName.unique ae))
        ∧ adapterErrorOf (ReceiptError.contractError CheckName.unique ae) = some ae)
    ∧ (A.is_unique r (ctx.receipt_id r) = Except.ok false →
        lifecycleStep ReceiptState.Checking
            (LifecycleEvent.checkComplete (runChecks ctx A r))
          = some (ReceiptState.Failed (ReceiptError.checkFailure CheckName.unique)))
    ∧ (A.is_unique r (ctx.receipt_id r) = Except.ok true →
        A.is_valid_allocation_id r.message.allocation_id = Except.error ae →
        lifecycleStep ReceiptState.Checking
            (LifecycleEvent.checkComplete (runChecks ctx A r))
          = some (ReceiptState.Failed (ReceiptError.contractError CheckName.allocationId ae))
        ∧ adapterErrorOf (ReceiptError.contractError CheckName.allocationId ae) = some ae)
    ∧ (A.is_unique r (ctx.receipt_id r) = Except.ok true →
        A.is_valid_allocation_id r.message.allocation_id = Except.ok false →
        lifecycleStep ReceiptState.Checking
            (LifecycleEvent.checkComplete (runChecks ctx A r))
          = some (ReceiptState.Failed (ReceiptError.checkFailure CheckName.allocationId)))
    ∧ (A.is_unique r (ctx.receipt_id r) = Except.ok true →
        A.is_valid_allocation_id r.message.allocation_id = Except.ok true →
        A.is_valid_value r.message.value (ctx.query_id r) = Except.error ae →
        lifecycleStep ReceiptState.Checking
            (LifecycleEvent.checkComplete (runChecks ctx A r))
          = some (ReceiptState.Failed (ReceiptError.contractError CheckName.value ae))
        ∧ adapterErrorOf (ReceiptError.contractError CheckName.value ae) = some ae)
    ∧ (A.is_unique r (ctx.receipt_id r) = Except.ok true →
        A.is_valid_allocation_id r.message.allocation_id = Except.ok true →
        A.is_valid_value r.message.value (ctx.query_id r) = Except.ok false →
        lifecycleStep ReceiptState.Checking
            (LifecycleEvent.checkComplete (runChecks ctx A r))
          = some (ReceiptState.Failed (ReceiptError.checkFailure CheckName.value)))
    ∧ (A.is_unique r (ctx.receipt_id r) = Except.ok true →
        A.is_valid_allocation_id r.message.allocation_id = Except.ok true →
        A.is_valid_value r.message.value (ctx.query_id r) = Except.ok true →
        A.is_valid_sender_id s = Except.error ae →
        lifecycleStep ReceiptState.Checking
            (LifecycleEvent.checkComplete (runChecks ctx A r))
          = some (ReceiptState.Failed (ReceiptError.contractError CheckName.senderId ae))
        ∧ adapterErrorOf (ReceiptError.contractError CheckName.senderId ae) = some ae)
    ∧ (A.is_unique r (ctx.receipt_id r) = Except.ok true →
        A.is_valid_allocation_id r.message.allocation_id = Except.ok true →
        A.is_valid_value r.message.value (ctx.query_id r) = Except.ok true →
        A.is_valid_sender_id s = Except.ok false →
        lifecycleStep ReceiptState.Checking
            (LifecycleEvent.checkComplete (runChecks ctx A r))
          = some (ReceiptState.Failed (ReceiptError.checkFailure CheckName.senderId))) := by
  refine ⟨?_, ?_, ?_, ?_, ?_, ?_, ?_, ?_⟩
  · intro hu
    have hrc : runChecks ctx A r
        = Except.error (ReceiptError.contractError CheckName.unique ae) := by
      simp [runChecks, checkVerdict, hrec, hu]
    rw [hrc]
    exact ⟨rfl, rfl⟩
  · intro hu
    have hrc : runChecks ctx A r
        = Except.error (ReceiptError.checkFailure CheckName.unique) := by
      simp [runChecks, checkVerdict, hrec, hu]
    rw [hrc]
    rfl
  · intro hu ha
    have hrc : runChecks ctx A r
        = Except.error (ReceiptError.contractError CheckName.allocationId ae) := by
      simp [runChecks, checkVerdict, hrec, hu, ha]
    rw [hrc]
    exact ⟨rfl, rfl⟩
  · intro hu ha
    have hrc : runChecks ctx A r
        = Except.error (ReceiptError.checkFailure CheckName.allocationId) := by
      simp [runChecks, checkVerdict, hrec, hu, ha]
    rw [hrc]
    rfl
  · intro hu ha hv
    have hrc : runChecks ctx A r
        = Except.error (ReceiptError.contractError CheckName.value ae) := by
      simp [runChecks, checkVerdict, hrec, hu, ha, hv]
    rw [hrc]
    exact ⟨rfl, rfl⟩
  · intro hu ha hv
    have hrc : runChecks ctx A r
        = Except.error (ReceiptError.checkFailure CheckName.value) := by
      simp [runChecks, checkVerdict, hrec, hu, ha, hv]
    rw [hrc]
    rfl
  · intro hu ha hv hs
    have hrc : runChecks ctx A r
        = Except.error (ReceiptError.contractError CheckName.senderId ae) := by
      simp [runChecks, checkVerdict, hrec, hu, ha, hv, hs]
    rw [hrc]
    exact ⟨rfl, rfl⟩
  · intro hu ha hv hs
    have hrc : runChecks ctx A r
        = Except.error (ReceiptError.checkFailure CheckName.senderId) := by
      simp [runChecks, checkVerdict, hrec, hu, ha, hv, hs]
    rw [hrc]
    rfl

/-- C10: the receipt state space is closed — every state is exactly one of
Checking, Failed, AwaitingReserve, Reserved — and Failed is the only state
carrying data, an inspectable ReceiptError recoverable by failedReason. -/
theorem receipt_state_space_closed (E : Type) :
    (∀ s : ReceiptState E,
        s = ReceiptState.Checking
          ∨ (∃ e, s = ReceiptState.Failed e)
          ∨ s = ReceiptState.AwaitingReserve
          ∨ s = ReceiptState.Reserved)
    ∧ (∀ e : ReceiptError E, failedReason (ReceiptState.Failed e) = some e)
    ∧ (∀ (s : ReceiptState E) (e : ReceiptError E),
        failedReason s = some e → s = ReceiptState.Failed e)
    ∧ failedReason (ReceiptState.Checking : ReceiptState E) = none
    ∧ failedReason (ReceiptState.AwaitingReserve : ReceiptState E) = none
    ∧ failedReason (ReceiptState.Reserved : ReceiptState E) = none := by
  refine ⟨?_, fun e => rfl, ?_, rfl, rfl, rfl⟩
  · intro s
    cases s with
    | Checking => exact Or.inl rfl
    | Failed e => exact Or.inr (Or.inl ⟨e, rfl⟩)
    | AwaitingReserve => exact Or.inr (Or.inr (Or.inl rfl))
    | Reserved => exact Or.inr (Or.inr (Or.inr rfl))
  · intro s e h
    cases s with
    | Checking => cases h
    | Failed e2 =>
      have h2 : some e2 = some e := h
      rw [(Option.some.injEq _ _).mp h2]
    | AwaitingReserve => cases h
    | Reserved => cases h

theorem rav_value_sum_witness :
    sReq.expected_rav.value_aggregate
        = priorValue (some sPrior) + sumValues sReq.valid_receipts
      ∧ priorValue (some sPrior) + sumValues sReq.valid_receipts < U128_MOD :=
  rav_value_aggregate_eq_prior_plus_sum sCtx sAdapter 1 (some sPrior)
    [sR1, sR2, sR3] sReq (by decide) (by rfl)

theorem overflow_scenario_witness :
    create_rav_request sCtx sBigAdapter 1 (some sBigPrior) [sOv]
      = Except.error AggregationError.aggregationOverflow :=
  (overflow_aborts_check_failures_demote sCtx sBigAdapter 1 (some sBigPrior)
    [sOv] (by decide)).1.mpr (by decide)

theorem watermark_witness : sR1 ∉ sReq.valid_receipts :=
  (watermark_drops_stale_receipts sCtx sAdapter 1 (some sPrior)
    [sR1, sR2, sR3] (by decide)).1 sPrior sReq sR1 rfl (by rfl) (by decide) (by decide)

theorem timestamp_witness :
    (sReq.valid_receipts ≠ [] →
        (∃ rm ∈ sReq.valid_receipts,
            sReq.expected_rav.timestamp_ns = rm.message.timestamp_ns)
        ∧ ∀ r ∈ sReq.valid_receipts,
            r.message.timestamp_ns ≤ sReq.expected_rav.timestamp_ns)
    ∧ (filterByWatermark (some sPrior) [sR1, sR2, sR3] = [] →
        sReq.expected_rav.timestamp_ns = priorTimestamp (some sPrior)) :=
  rav_timestamp_max_or_prior sCtx sAdapter 1 (some sPrior)
    [sR1, sR2, sR3] sReq (by decide) (by rfl)

theorem partition_witness :
    sReq.valid_receipts
        = (filterByWatermark (some sPrior) [sR1, sR2, sR3]).filter (passes sCtx sAdapter)
    ∧ sReq.invalid_receipts
        = (filterByWatermark (some sPrior) [sR1, sR2, sR3]).filter
            (fun r => ! passes sCtx sAdapter r)
    ∧ List.Sublist sReq.valid_receipts (filterByWatermark (some sPrior) [sR1, sR2, sR3])
    ∧ List.Sublist sReq.invalid_receipts (filterByWatermark (some sPrior) [sR1, sR2, sR3])
    ∧ (∀ r, passes sCtx sAdapter r = true ↔ allChecksPass sCtx sAdapter r)
    ∧ sReq.invalid_receipts
        = ((partitionReceipts sCtx sAdapter
              (filterByWatermark (some sPrior) [sR1, sR2, sR3])).2).map Prod.fst
    ∧ (∀ p ∈ (partitionReceipts sCtx sAdapter
          (filterByWatermark (some sPrior) [sR1, sR2, sR3])).2,
        runChecks sCtx sAdapter p.1 = Except.error p.2) :=
  aggregation_stable_partition sCtx sAdapter 1 (some sPrior)
    [sR1, sR2, sR3] sReq (by decide) (by rfl)

theorem monotonicity_witness :
    sPrior.value_aggregate ≤ sReq.expected_rav.value_aggregate
    ∧ sPrior.timestamp_ns ≤ sReq.expected_rav.timestamp_ns :=
  rav_monotonicity sCtx sAdapter 1 sPrior [sR1, sR2, sR3] sReq (by decide) (by rfl)

theorem deterministic_witness :
    partitionReceipts sCtx sAdapter (filterByWatermark (some sPrior) [sR1, sR2, sR3])
        = partitionReceipts sCtx sAdapter (filterByWatermark (some sPrior) [sR1, sR2, sR3])
    ∧ create_rav_request sCtx sAdapter 1 (some sPrior) [sR1, sR2, sR3]
        = create_rav_request sCtx sAdapter 1 (some sPrior) [sR1, sR2, sR3] :=
  aggregation_deterministic sCtx sAdapter sAdapter 1 (some sPrior) [sR1, sR2, sR3]
    (fun _ _ => rfl) (fun _ => rfl) (fun _ _ => rfl) (fun _ => rfl)

theorem lifecycle_witness :
    lifecycleStep ReceiptState.Checking
        (LifecycleEvent.checkComplete (runChecks sCtx sAdapter sR2))
      = some (ReceiptState.Failed (ReceiptError.checkFailure CheckName.value)) :=
  (lifecycle_state_machine sCtx sAdapter sR2).1
    (ReceiptError.checkFailure CheckName.value) (by rfl)

theorem adapter_error_witness :
    lifecycleStep ReceiptState.Checking
        (LifecycleEvent.checkComplete (runChecks sCtx sAdapter sErr))
      = some (ReceiptState.Failed (ReceiptError.contractError CheckName.value 42))
    ∧ adapterErrorOf (ReceiptError.contractError CheckName.value 42) = some 42 :=
  (adapter_error_negative_decision sCtx sAdapter sErr 7 42 (by rfl)).2.2.2.2.1
    (by rfl) (by rfl) (by rfl)

theorem state_space_witness :
    ((ReceiptState.Failed ReceiptError.signatureError : ReceiptState Nat)
        = ReceiptState.Checking
      ∨ (∃ e, (ReceiptState.Failed ReceiptError.signatureError : ReceiptState Nat)
          = ReceiptState.Failed e)
      ∨ (ReceiptState.Failed ReceiptError.signatureError : ReceiptState Nat)
          = ReceiptState.AwaitingReserve
      ∨ (ReceiptState.Failed ReceiptError.signatureError : ReceiptState Nat)
          = ReceiptState.Reserved)
    ∧ (ReceiptState.Failed ReceiptError.signatureError : ReceiptState Nat)
        = ReceiptState.Failed ReceiptError.signatureError :=
  ⟨(receipt_state_space_closed Nat).1 (ReceiptState.Failed ReceiptError.signatureError),
   (receipt_state_space_closed Nat).2.2.1
     (ReceiptState.Failed ReceiptError.signatureError) ReceiptError.signatureError (by rfl)⟩

end Tap

